import Mathlib

/-!
Verification model of the AI Blog Idea Brainstormer application (`src/main.py`).

Strings are modelled as `List Char`.  The Python character classes used by
`str.strip()` and the regex classes `\d` / `\s` are modelled by their ASCII
fragments (the application only ever feeds ASCII template text and model
output lines to them).  Lines produced by `str.split('\n')` never contain a
newline character, which is the domain on which the regex model is used.
-/

namespace Brainstormer

/-- ASCII whitespace recognised by Python `str.strip()` and the regex class
`\s` (space, tab, newline, carriage return, vertical tab, form feed). -/
def isPySpace (c : Char) : Bool :=
  c == ' ' || c == '\t' || c == '\n' || c == '\r' ||
    c == Char.ofNat 11 || c == Char.ofNat 12

/-- Python `str.strip()`: drop leading and trailing whitespace. -/
def pyStrip (s : List Char) : List Char :=
  (s.dropWhile isPySpace).rdropWhile isPySpace

/-- Python `str.lower()` on ASCII data: lowercase each character. -/
def pyLower (s : List Char) : List Char :=
  s.map Char.toLower

/-- Python `s.split('\n')`: split on every newline, keeping empty pieces;
the empty string yields `[""]`. -/
def splitOnNl : List Char → List (List Char)
  | [] => [[]]
  | c :: cs =>
      if c = '\n' then [] :: splitOnNl cs
      else
        match splitOnNl cs with
        | [] => [[c]]
        | l :: ls => (c :: l) :: ls

/-- Tail of the regex `^\d+\.?\s*(.+)$`: match `\s*(.+)$` (greedy star with
backtracking) and return the text captured by `(.+)`. -/
def matchWs : List Char → Option (List Char)
  | [] => none
  | c :: cs =>
      if isPySpace c then
        match matchWs cs with
        | some g => some g
        | none => some (c :: cs)
      else some (c :: cs)

/-- Match `\.?\s*(.+)$` (optional literal dot, greedy, with backtracking)
and return the text captured by `(.+)`. -/
def matchDot : List Char → Option (List Char)
  | [] => none
  | c :: cs =>
      if c = '.' then
        match matchWs cs with
        | some g => some g
        | none => matchWs (c :: cs)
      else matchWs (c :: cs)

/-- Continue `\d+\.?\s*(.+)$` after at least one digit was consumed: keep
consuming digits greedily, backtracking into `\.?\s*(.+)$` when needed. -/
def matchAfterDigits : List Char → Option (List Char)
  | [] => none
  | c :: cs =>
      if c.isDigit then
        match matchAfterDigits cs with
        | some g => some g
        | none => matchDot (c :: cs)
      else matchDot (c :: cs)

/-- `re.match(r'^\d+\.?\s*(.+)$', line)`: the capture group of the regex on a
newline-free line, `none` when the line does not match.  Mirrors Python's
leftmost greedy matching with backtracking. -/
def reMatchIdea : List Char → Option (List Char)
  | [] => none
  | c :: cs => if c.isDigit then matchAfterDigits cs else none

/-- One loop iteration of the response parser (`main.py` lines 152-156):
strip the line, apply the regex, and keep the capture only when the match
succeeded and the captured group is non-empty
(`if match and match.group(1)`). -/
def lineParse (line : List Char) : Option (List Char) :=
  match reMatchIdea (pyStrip line) with
  | none => none
  | some g => if g = [] then none else some g

/-- The response parser of `generate_blog_ideas` (`main.py` lines 151-158):
`for line in response.strip().split('\n')`, collect the regex captures. -/
def parse_ideas (response : List Char) : List (List Char) :=
  (splitOnNl (pyStrip response)).filterMap lineParse

/-! ## Prompt Builder (`main.py` lines 121-136 and 177-218) -/

/-- `keywords_text = f"Include these keywords or goals: {keywords}" if keywords else ""`
(`main.py` line 130); `None` and the empty string are falsy in Python. -/
def keywordsText : Option (List Char) → List Char
  | none => []
  | some k => if k = [] then [] else ("Include these keywords or goals: ").data ++ k

/-- The idea-generation template (`main.py` lines 121-127) with the four
placeholders substituted, exactly as the f-string formatting performs it. -/
def fillIdeasTemplate (topic audience tone kwtext : List Char) : List Char :=
  ("\n        You\x27re a creative blogger. Generate 3-5 blog post ideas for the topic ").data
    ++ topic
    ++ (", \n        targeting ").data
    ++ audience
    ++ (", in a ").data
    ++ tone
    ++ (" tone. ").data
    ++ kwtext
    ++ ("\n        \n        Format your response as a numbered list with only the ideas, one per line.\n        Each idea should be catchy, specific, and tailored to the audience.\n        ").data

/-- The complete idea-generation prompt built from a request
(`main.py` lines 129-136). -/
def buildIdeasPrompt (topic audience tone : List Char)
    (keywords : Option (List Char)) : List Char :=
  fillIdeasTemplate topic audience tone (keywordsText keywords)

/-- The outline-generation template (`main.py` lines 177-218) with its four
placeholders substituted. -/
def buildOutlinePrompt (idea topic audience tone : List Char) : List Char :=
  ("\n        You\x27re a content strategist. Create a detailed blog outline for ").data
    ++ idea
    ++ (".\n        Include a title, intro, 2-3 main sections with subheadings, conclusion, and CTA.\n        Use a ").data
    ++ tone
    ++ (" tone for ").data
    ++ audience
    ++ (" interested in ").data
    ++ topic
    ++ (".\n        \n        Format your response with these sections:\n        \n        TITLE: (A catchy, SEO-friendly title)\n        \n        INTRODUCTION:\n        - (Hook to grab attention)\n        - (Context about the topic)\n        - (What readers will learn)\n        \n        SECTION 1: (Main section heading)\n        - (Subpoint 1)\n        - (Subpoint 2)\n        - (Subpoint 3)\n        \n        SECTION 2: (Main section heading)\n        - (Subpoint 1)\n        - (Subpoint 2)\n        - (Subpoint 3)\n        \n        SECTION 3: (Main section heading - optional)\n        - (Subpoint 1)\n        - (Subpoint 2)\n        - (Subpoint 3)\n        \n        CONCLUSION:\n        - (Summary of key points)\n        - (Final thoughts)\n        \n        CALL TO ACTION:\n        - (Specific action for reader to take)\n        ").data

/-! ## Completion Client boundary, credential, and event traces -/

/-- Observable side effects of a generation operation: reading the secret from
the process environment (`os.getenv`, `main.py` line 92) and one network call
to the completion service carrying the built prompt (`chain.run`). -/
inductive Event where
  | envRead : Event
  | networkCall : List Char → Event
deriving DecidableEq

/-- `true` on the events that read the credential from the environment. -/
def isEnvRead : Event → Bool
  | Event.envRead => true
  | _ => false

/-- User-facing errors of the application (`main.py` lines 95, 285, 300). -/
inductive AppError where
  | missingCredential
  | invalidInput
  | insufficientIdeas
deriving DecidableEq

/-- The literal message shown for each error. -/
def errorMessage : AppError → List Char
  | AppError.missingCredential => ("OpenAI API key not found. Please check your .env file.").data
  | AppError.invalidInput => ("Please provide both a topic and target audience.").data
  | AppError.insufficientIdeas =>
      ("Failed to generate enough ideas. Please try again with different inputs.").data

/-- The configured LLM handle returned by `ChatOpenAI(...)`. -/
structure ChatClient where
  model_name : List Char
  temperature : ℚ
  api_key : List Char
deriving DecidableEq

/-- Python truthiness test `if not api_key` (`main.py` line 94): the key is
usable iff the environment holds it and it is non-empty. -/
def credentialOk : Option (List Char) → Bool
  | none => false
  | some k => !(k.isEmpty)

/-- `setup_openai_client` (`main.py` lines 85-102): read `OPEN_API_KEY` from
the environment (one `envRead` event); halt with a configuration error when
absent or empty, otherwise return a `gpt-4` client at temperature 0.7. -/
def setup_openai_client (env : Option (List Char)) :
    Except AppError ChatClient × List Event :=
  (match env with
   | none => Except.error AppError.missingCredential
   | some k =>
       if k = [] then Except.error AppError.missingCredential
       else Except.ok ⟨("gpt-4").data, (7 : ℚ) / 10, k⟩,
   [Event.envRead])

/-- `generate_blog_ideas` (`main.py` lines 105-158): set up the client (env
read), build the prompt, run the chain (one network call, the raw response
being whatever the external completion service `complete` returns), and parse
the response into a list of ideas.  On a missing credential the operation
halts (`st.stop`) before the network call. -/
def generate_blog_ideas (env : Option (List Char)) (complete : List Char → List Char)
    (topic audience tone : List Char) (keywords : Option (List Char)) :
    Except AppError (List (List Char)) × List Event :=
  match setup_openai_client env with
  | (Except.error e, tr) => (Except.error e, tr)
  | (Except.ok _llm, tr) =>
      let prompt := buildIdeasPrompt topic audience tone keywords
      (Except.ok (parse_ideas (complete prompt)), tr ++ [Event.networkCall prompt])

/-- `generate_blog_outline` (`main.py` lines 161-233): set up the client (env
read), lower the temperature to 0.5, build the outline prompt, run the chain
(one network call) and return the raw response unmodified. -/
def generate_blog_outline (env : Option (List Char)) (complete : List Char → List Char)
    (idea topic audience tone : List Char) :
    Except AppError (List Char) × List Event :=
  match setup_openai_client env with
  | (Except.error e, tr) => (Except.error e, tr)
  | (Except.ok llm, tr) =>
      let _llm2 : ChatClient := { llm with temperature := (1 : ℚ) / 2 }
      let prompt := buildOutlinePrompt idea topic audience tone
      (Except.ok (complete prompt), tr ++ [Event.networkCall prompt])

/-! ## Download Link Builder (`main.py` lines 236-254) -/

/-- UTF-8 encoding of one character (Python `str.encode()`). -/
def utf8EncodeChar (c : Char) : List Nat :=
  let n := c.toNat
  if n < 128 then [n]
  else if n < 2048 then [192 + n / 64, 128 + n % 64]
  else if n < 65536 then [224 + n / 4096, 128 + n / 64 % 64, 128 + n % 64]
  else [240 + n / 262144, 128 + n / 4096 % 64, 128 + n / 64 % 64, 128 + n % 64]

/-- Python `content.encode()`: UTF-8 bytes of the text. -/
def utf8Encode (s : List Char) : List Nat :=
  (s.map utf8EncodeChar).flatten

/-- Standard base64 alphabet. -/
def base64Char (n : Nat) : Char :=
  if n < 26 then Char.ofNat (65 + n)
  else if n < 52 then Char.ofNat (97 + (n - 26))
  else if n < 62 then Char.ofNat (48 + (n - 52))
  else if n = 62 then '+' else '/'

/-- `base64.b64encode` on a byte sequence, with `=` padding. -/
def base64Encode : List Nat → List Char
  | [] => []
  | [b1] => [base64Char (b1 / 4), base64Char (b1 % 4 * 16), '=', '=']
  | [b1, b2] => [base64Char (b1 / 4), base64Char (b1 % 4 * 16 + b2 / 16),
      base64Char (b2 % 16 * 4), '=']
  | b1 :: b2 :: b3 :: rest =>
      base64Char (b1 / 4) :: base64Char (b1 % 4 * 16 + b2 / 16) ::
        base64Char (b2 % 16 * 4 + b3 / 64) :: base64Char (b3 % 64) ::
        base64Encode rest

/-- `get_download_link` (`main.py` lines 236-254): an anchor embedding the
base64-encoded content as a `data:text/plain` URI, with the given filename
and label. -/
def get_download_link (content filename link_text : List Char) : List Char :=
  ("<a href=\"data:text/plain;base64,").data
    ++ base64Encode (utf8Encode content)
    ++ ("\" download=\"").data
    ++ filename
    ++ ("\" class=\"download-link\">").data
    ++ link_text
    ++ ("</a>").data

/-! ## Session state and the `main` handlers (`main.py` lines 257-367) -/

/-- The session-state variables of `initialize_session_state`
(`main.py` lines 69-82). -/
structure SessionState where
  generated_ideas : List (List Char)
  selected_idea : Option (List Char)
  outline : List Char
  topic : List Char
  audience : List Char
  tone : List Char
deriving DecidableEq

/-- The freshly initialised session state (`main.py` lines 69-82). -/
def initialState : SessionState :=
  ⟨[], none, [], [], [], []⟩

/-- The five writing-tone labels offered by the selectbox
(`main.py` line 275). -/
def toneOptions : List (List Char) :=
  [("Casual").data, ("Professional").data, ("Humorous").data,
   ("Informative").data, ("Inspirational").data]

/-- The form-submission branch of `main` (`main.py` lines 283-300): reject
empty topic/audience; otherwise save topic, audience and tone into the
session, call `generate_blog_ideas` with the lowercased tone, and accept the
parsed ideas only when non-empty and at least 3, clearing selection and
outline; otherwise show an error and keep the previous idea state.
Returns the new state, the error shown (if any) and the event trace. -/
def submitForm (env : Option (List Char)) (complete : List Char → List Char)
    (st : SessionState) (topic audience tone keywords : List Char) :
    SessionState × Option AppError × List Event :=
  if topic = [] ∨ audience = [] then (st, some AppError.invalidInput, [])
  else
    let st1 := { st with topic := topic, audience := audience, tone := tone }
    match generate_blog_ideas env complete topic audience (pyLower tone) (some keywords) with
    | (Except.error e, tr) => (st1, some e, tr)
    | (Except.ok ideas, tr) =>
        if ideas ≠ [] ∧ 3 ≤ ideas.length then
          ({ st1 with generated_ideas := ideas, selected_idea := none, outline := [] }, none, tr)
        else (st1, some AppError.insufficientIdeas, tr)

/-- The idea-selection branch of `main` (`main.py` lines 317-325): store the
chosen idea, then generate its outline from the session's topic, audience and
lowercased tone; on a halt during generation the old outline is kept. -/
def selectIdea (env : Option (List Char)) (complete : List Char → List Char)
    (st : SessionState) (idea : List Char) : SessionState × List Event :=
  let st1 := { st with selected_idea := some idea }
  match generate_blog_outline env complete idea st.topic st.audience (pyLower st.tone) with
  | (Except.ok outline, tr) => ({ st1 with outline := outline }, tr)
  | (Except.error _, tr) => (st1, tr)

/-- The download section of `main` (`main.py` lines 340-357): the `.txt` and
`.pdf` download links built for the current outline and timestamp. -/
def outlineDownloadLinks (outline ts : List Char) : List Char × List Char :=
  (get_download_link outline
      (("blog_outline_").data ++ ts ++ (".txt").data) ("📄 Download as Text File").data,
   get_download_link outline
      (("blog_outline_").data ++ ts ++ (".pdf").data) ("📑 Download as PDF").data)

/-! ## Parser lemmas -/

theorem parse_ideas_sample1 : parse_ideas ("1. Idea A\n2. Idea B").data =
    [("Idea A").data, ("Idea B").data] := by decide

theorem parse_ideas_sample2 :
    parse_ideas ("  \nintro\n1. Idea A\n\n2) x\n3. Idea B\n").data =
      [("Idea A").data, (") x").data, ("Idea B").data] := by decide

theorem reMatchIdea_sample_backtracking :
    reMatchIdea ("123").data = some (("3").data) ∧
    reMatchIdea ("1.").data = some ((".").data) ∧
    reMatchIdea ("7").data = none := by decide

theorem splitOnNl_ne_nil (s : List Char) : splitOnNl s ≠ [] := by
  cases s with
  | nil => simp [splitOnNl]
  | cons c cs =>
      simp only [splitOnNl]
      split
      · simp
      · split <;> simp

theorem splitOnNl_cons_nl (cs : List Char) :
    splitOnNl ('\n' :: cs) = [] :: splitOnNl cs := by
  simp [splitOnNl]

theorem splitOnNl_cons_ne {c : Char} (h : c ≠ '\n') {cs l : List Char}
    {ls : List (List Char)} (hs : splitOnNl cs = l :: ls) :
    splitOnNl (c :: cs) = (c :: l) :: ls := by
  simp [splitOnNl, h, hs]

theorem lineParse_nil : lineParse [] = none := rfl

theorem pyStrip_cons_ws {c : Char} (hw : isPySpace c = true) (l : List Char) :
    pyStrip (c :: l) = pyStrip l := by
  simp [pyStrip, List.dropWhile_cons, hw]

theorem lineParse_cons_ws {c : Char} (hw : isPySpace c = true) (l : List Char) :
    lineParse (c :: l) = lineParse l := by
  simp [lineParse, pyStrip_cons_ws hw]

theorem pyStrip_concat_ws {c : Char} (hw : isPySpace c = true) (l : List Char) :
    pyStrip (l ++ [c]) = pyStrip l := by
  unfold pyStrip
  rw [List.dropWhile_append]
  cases hd : l.dropWhile isPySpace with
  | nil =>
      simp [hd, List.dropWhile_cons, hw]
  | cons x xs =>
      simp only [hd, List.isEmpty_cons, ite_false, Bool.false_eq_true]
      exact List.rdropWhile_concat_pos _ _ _ hw

theorem lineParse_concat_ws {c : Char} (hw : isPySpace c = true) (l : List Char) :
    lineParse (l ++ [c]) = lineParse l := by
  simp [lineParse, pyStrip_concat_ws hw]

theorem filterMap_lineParse_dropWhile (s : List Char) :
    (splitOnNl (s.dropWhile isPySpace)).filterMap lineParse =
      (splitOnNl s).filterMap lineParse := by
  induction s with
  | nil => rfl
  | cons c cs ih =>
      by_cases hw : isPySpace c = true
      · rw [List.dropWhile_cons_of_pos hw]
        by_cases hn : c = '\n'
        · subst hn
          rw [splitOnNl_cons_nl, List.filterMap_cons_none lineParse_nil]
          exact ih
        · obtain ⟨l, ls, hs⟩ := List.exists_cons_of_ne_nil (splitOnNl_ne_nil cs)
          rw [splitOnNl_cons_ne hn hs, ih, hs]
          simp [List.filterMap_cons, lineParse_cons_ws hw]
      · rw [List.dropWhile_cons_of_neg (by simpa using hw)]

theorem splitOnNl_append_nl (a : List Char) :
    splitOnNl (a ++ ['\n']) = splitOnNl a ++ [[]] := by
  induction a with
  | nil => simp [splitOnNl]
  | cons c cs ih =>
      by_cases hn : c = '\n'
      · subst hn
        rw [List.cons_append, splitOnNl_cons_nl, splitOnNl_cons_nl, ih]
        rfl
      · obtain ⟨l, ls, hs⟩ := List.exists_cons_of_ne_nil (splitOnNl_ne_nil cs)
        have h2 : splitOnNl (cs ++ ['\n']) = l :: (ls ++ [[]]) := by
          rw [ih, hs]; rfl
        rw [List.cons_append, splitOnNl_cons_ne hn h2, splitOnNl_cons_ne hn hs]
        rfl

theorem splitOnNl_append_ne {c : Char} (h : c ≠ '\n') (a : List Char) :
    ∃ xs l, splitOnNl a = xs ++ [l] ∧ splitOnNl (a ++ [c]) = xs ++ [l ++ [c]] := by
  induction a with
  | nil =>
      refine ⟨[], [], rfl, ?_⟩
      simp [splitOnNl, h]
  | cons d ds ih =>
      obtain ⟨xs, l, hds, hdsc⟩ := ih
      by_cases hd : d = '\n'
      · subst hd
        refine ⟨[] :: xs, l, ?_, ?_⟩
        · rw [splitOnNl_cons_nl, hds]; rfl
        · rw [List.cons_append, splitOnNl_cons_nl, hdsc]; rfl
      · cases xs with
        | nil =>
            refine ⟨[], d :: l, ?_, ?_⟩
            · rw [splitOnNl_cons_ne hd (by simpa using hds)]; rfl
            · rw [List.cons_append, splitOnNl_cons_ne hd (by simpa using hdsc)]
              rfl
        | cons x xs1 =>
            refine ⟨(d :: x) :: xs1, l, ?_, ?_⟩
            · rw [splitOnNl_cons_ne hd (by simpa using hds)]; rfl
            · rw [List.cons_append, splitOnNl_cons_ne hd (by simpa using hdsc)]
              rfl

theorem filterMap_lineParse_rdropWhile (s : List Char) :
    (splitOnNl (s.rdropWhile isPySpace)).filterMap lineParse =
      (splitOnNl s).filterMap lineParse := by
  induction s using List.reverseRecOn with
  | nil => rfl
  | append_singleton a c ih =>
      by_cases hw : isPySpace c = true
      · rw [List.rdropWhile_concat_pos _ _ _ hw]
        by_cases hn : c = '\n'
        · subst hn
          rw [splitOnNl_append_nl, List.filterMap_append]
          simp [List.filterMap_cons, lineParse_nil, ih]
        · obtain ⟨xs, l, hds, hdsc⟩ := splitOnNl_append_ne hn a
          rw [hdsc, ih, hds]
          simp [List.filterMap_append, List.filterMap_cons, lineParse_concat_ws hw]
      · rw [List.rdropWhile_concat_neg _ _ _ (by simpa using hw)]

/-- The response parser is insensitive to the outer `response.strip()`:
it equals the per-line filter-map over the raw response's lines. -/
theorem parse_ideas_eq_filterMap (s : List Char) :
    parse_ideas s = (splitOnNl s).filterMap lineParse := by
  unfold parse_ideas pyStrip
  rw [filterMap_lineParse_rdropWhile, filterMap_lineParse_dropWhile]

theorem matchWs_some_ne_nil {s g : List Char} (h : matchWs s = some g) : g ≠ [] := by
  induction s generalizing g with
  | nil => simp [matchWs] at h
  | cons c cs ih =>
      simp only [matchWs] at h
      split at h
      · cases hm : matchWs cs with
        | none => rw [hm] at h; simp at h; simp [← h]
        | some g0 => rw [hm] at h; simp at h; exact h ▸ ih hm
      · simp at h; simp [← h]

theorem matchDot_some_ne_nil {s g : List Char} (h : matchDot s = some g) : g ≠ [] := by
  cases s with
  | nil => simp [matchDot] at h
  | cons c cs =>
      simp only [matchDot] at h
      split at h
      · cases hm : matchWs cs with
        | none => rw [hm] at h; exact matchWs_some_ne_nil h
        | some g0 => rw [hm] at h; simp at h; exact h ▸ matchWs_some_ne_nil hm
      · exact matchWs_some_ne_nil h

theorem matchAfterDigits_some_ne_nil {s g : List Char}
    (h : matchAfterDigits s = some g) : g ≠ [] := by
  induction s generalizing g with
  | nil => simp [matchAfterDigits] at h
  | cons c cs ih =>
      simp only [matchAfterDigits] at h
      split at h
      · cases hm : matchAfterDigits cs with
        | none => rw [hm] at h; exact matchDot_some_ne_nil h
        | some g0 => rw [hm] at h; simp at h; exact h ▸ ih hm
      · exact matchDot_some_ne_nil h

theorem reMatchIdea_some_ne_nil {s g : List Char}
    (h : reMatchIdea s = some g) : g ≠ [] := by
  cases s with
  | nil => simp [reMatchIdea] at h
  | cons c cs =>
      simp only [reMatchIdea] at h
      split at h
      · exact matchAfterDigits_some_ne_nil h
      · simp at h

/-- The non-empty-group guard in the loop body never fires: the capture of
`(.+)` is always non-empty, so `lineParse` is exactly the regex capture of
the stripped line. -/
theorem lineParse_eq_reMatch (l : List Char) :
    lineParse l = reMatchIdea (pyStrip l) := by
  unfold lineParse
  cases hm : reMatchIdea (pyStrip l) with
  | none => rfl
  | some g => simp [reMatchIdea_some_ne_nil hm]

theorem filterMap_eq_map_of_all_some {α β : Type} (f : α → Option β) (d : β)
    (L : List α) (h : ∀ l ∈ L, (f l).isSome) :
    L.filterMap f = L.map (fun l => (f l).getD d) := by
  induction L with
  | nil => rfl
  | cons a L ih =>
      have ha := h a (by simp)
      obtain ⟨b, hb⟩ := Option.isSome_iff_exists.mp ha
      rw [List.map_cons, List.filterMap_cons_some hb, hb]
      exact congrArg _ (ih fun l hl => h l (by simp [hl]))

theorem filterMap_lineParse_eq (L : List (List Char)) :
    L.filterMap lineParse = L.filterMap (fun l => reMatchIdea (pyStrip l)) := by
  induction L with
  | nil => rfl
  | cons a L ih => simp [List.filterMap_cons, lineParse_eq_reMatch, ih]

/-! ## Reduction lemmas for the operations under a valid / invalid credential -/

theorem setup_openai_client_missing {env : Option (List Char)}
    (hcred : credentialOk env = false) :
    setup_openai_client env = (Except.error AppError.missingCredential, [Event.envRead]) := by
  cases env with
  | none => rfl
  | some k =>
      have : k = [] := by simpa [credentialOk, List.isEmpty_iff] using hcred
      simp [setup_openai_client, this]

theorem setup_openai_client_ok {k : List Char} (hne : k ≠ []) :
    setup_openai_client (some k) =
      (Except.ok ⟨("gpt-4").data, (7 : ℚ) / 10, k⟩, [Event.envRead]) := by
  simp [setup_openai_client, hne]

theorem generate_blog_ideas_ok {k : List Char} (hne : k ≠ [])
    (complete : List Char → List Char) (topic audience tone : List Char)
    (keywords : Option (List Char)) :
    generate_blog_ideas (some k) complete topic audience tone keywords =
      (Except.ok (parse_ideas (complete (buildIdeasPrompt topic audience tone keywords))),
       [Event.envRead, Event.networkCall (buildIdeasPrompt topic audience tone keywords)]) := by
  rw [generate_blog_ideas, setup_openai_client_ok hne]
  rfl

theorem generate_blog_outline_ok {k : List Char} (hne : k ≠ [])
    (complete : List Char → List Char) (idea topic audience tone : List Char) :
    generate_blog_outline (some k) complete idea topic audience tone =
      (Except.ok (complete (buildOutlinePrompt idea topic audience tone)),
       [Event.envRead, Event.networkCall (buildOutlinePrompt idea topic audience tone)]) := by
  rw [generate_blog_outline, setup_openai_client_ok hne]
  rfl

theorem credentialOk_some {env : Option (List Char)}
    (hcred : credentialOk env = true) : ∃ k, env = some k ∧ k ≠ [] := by
  cases env with
  | none => simp [credentialOk] at hcred
  | some k =>
      exact ⟨k, rfl, by simpa [credentialOk, List.isEmpty_iff] using hcred⟩

theorem submitForm_reject {k topic audience : List Char}
    (hne : k ≠ []) (htopic : topic ≠ []) (haud : audience ≠ [])
    (complete : List Char → List Char) (st : SessionState) (tone keywords : List Char)
    (hfew : (parse_ideas (complete
      (buildIdeasPrompt topic audience (pyLower tone) (some keywords)))).length < 3) :
    submitForm (some k) complete st topic audience tone keywords =
      ({ st with topic := topic, audience := audience, tone := tone },
       some AppError.insufficientIdeas,
       [Event.envRead,
        Event.networkCall (buildIdeasPrompt topic audience (pyLower tone) (some keywords))]) := by
  rw [submitForm, if_neg (by rintro (h | h); exacts [htopic h, haud h]),
    generate_blog_ideas_ok hne]
  exact if_neg (by rintro ⟨-, h3⟩; omega)

theorem submitForm_accept {k topic audience : List Char}
    (hne : k ≠ []) (htopic : topic ≠ []) (haud : audience ≠ [])
    (complete : List Char → List Char) (st : SessionState) (tone keywords : List Char)
    (hmany : 3 ≤ (parse_ideas (complete
      (buildIdeasPrompt topic audience (pyLower tone) (some keywords)))).length) :
    submitForm (some k) complete st topic audience tone keywords =
      ({ generated_ideas :=
            parse_ideas (complete (buildIdeasPrompt topic audience (pyLower tone) (some keywords))),
         selected_idea := none, outline := [],
         topic := topic, audience := audience, tone := tone },
       none,
       [Event.envRead,
        Event.networkCall (buildIdeasPrompt topic audience (pyLower tone) (some keywords))]) := by
  rw [submitForm, if_neg (by rintro (h | h); exacts [htopic h, haud h]),
    generate_blog_ideas_ok hne]
  exact if_pos ⟨by rw [← List.length_pos_iff_ne_nil]; omega, hmany⟩

/-! ## The claims -/

/-- C1: For every idea-generation attempt, if the Response Parser yields fewer
than 3 ideas, the whole batch is rejected: an error is shown, the new partial
idea list is not stored, and the previously held idea list, selected idea and
outline are left unchanged (no partial-success state is retained). -/
theorem C1_insufficient_ideas_rejected
    (env : Option (List Char)) (complete : List Char → List Char)
    (st : SessionState) (topic audience tone keywords : List Char)
    (htopic : topic ≠ []) (haud : audience ≠ [])
    (hcred : credentialOk env = true)
    (hfew : (parse_ideas (complete
      (buildIdeasPrompt topic audience (pyLower tone) (some keywords)))).length < 3) :
    (submitForm env complete st topic audience tone keywords).2.1 =
        some AppError.insufficientIdeas ∧
    errorMessage AppError.insufficientIdeas =
      ("Failed to generate enough ideas. Please try again with different inputs.").data ∧
    (submitForm env complete st topic audience tone keywords).1.generated_ideas =
        st.generated_ideas ∧
    (submitForm env complete st topic audience tone keywords).1.selected_idea =
        st.selected_idea ∧
    (submitForm env complete st topic audience tone keywords).1.outline = st.outline := by
  obtain ⟨k, hk, hne⟩ := credentialOk_some hcred
  subst hk
  rw [submitForm_reject hne htopic haud complete st tone keywords hfew]
  exact ⟨rfl, rfl, rfl, rfl, rfl⟩

theorem C1_witness :
    (("1. A\n2. B").data ≠ [] → True) ∧
    (submitForm (some (("key").data)) (fun _ => ("1. A\n2. B").data) initialState
        (("travel").data) (("beginners").data) (("Casual").data) []).2.1 =
      some AppError.insufficientIdeas :=
  ⟨fun _ => trivial,
    (C1_insufficient_ideas_rejected (some (("key").data)) (fun _ => ("1. A\n2. B").data)
      initialState (("travel").data) (("beginners").data) (("Casual").data) []
      (by decide) (by decide) (by decide) (by decide)).1⟩

/-- C2: For every raw idea-generation response in which every line, after
stripping leading/trailing whitespace, matches `^\d+\.?\s*(.+)$`, the parser
returns a sequence whose length equals the number of input lines, in the same
order, with each element equal to that line's captured remainder. -/
theorem C2_all_lines_numbered_parsed_in_order (response : List Char)
    (h : ∀ l ∈ splitOnNl response, (reMatchIdea (pyStrip l)).isSome) :
    parse_ideas response =
      (splitOnNl response).map (fun l => (reMatchIdea (pyStrip l)).getD []) ∧
    (parse_ideas response).length = (splitOnNl response).length := by
  have hmain : parse_ideas response =
      (splitOnNl response).map (fun l => (reMatchIdea (pyStrip l)).getD []) := by
    rw [parse_ideas_eq_filterMap, filterMap_lineParse_eq,
      filterMap_eq_map_of_all_some (fun l => reMatchIdea (pyStrip l)) [] _ h]
  exact ⟨hmain, by rw [hmain, List.length_map]⟩

theorem C2_witness :
    parse_ideas (("1. Idea A\n2. Idea B\n3. Idea C").data) =
      (splitOnNl (("1. Idea A\n2. Idea B\n3. Idea C").data)).map
        (fun l => (reMatchIdea (pyStrip l)).getD []) :=
  (C2_all_lines_numbered_parsed_in_order
    (("1. Idea A\n2. Idea B\n3. Idea C").data) (by decide)).1

/-- C3: For every raw idea-generation response containing blank or
non-numbered lines interspersed with numbered lines, the parser output
contains no entry derived from a blank or non-numbered line (a line whose
stripped form fails the regex parses to `none`), and the entries derived from
matching lines appear in the same relative order as those lines appear in the
input (the output is the filter-map of the line parser over the input lines). -/
theorem C3_blank_and_nonmatching_lines_dropped (response : List Char) :
    parse_ideas response = (splitOnNl response).filterMap lineParse ∧
    (∀ line, pyStrip line = [] → lineParse line = none) ∧
    (∀ line, reMatchIdea (pyStrip line) = none → lineParse line = none) := by
  refine ⟨parse_ideas_eq_filterMap response, ?_, ?_⟩
  · intro line hb
    rw [lineParse_eq_reMatch, hb]
    rfl
  · intro line hb
    rw [lineParse_eq_reMatch, hb]

theorem C3_witness :
    parse_ideas (("intro\n1. Idea A\n\n2. Idea B").data) =
      (splitOnNl (("intro\n1. Idea A\n\n2. Idea B").data)).filterMap lineParse ∧
    lineParse (("   ").data) = none ∧
    lineParse (("intro").data) = none :=
  ⟨(C3_blank_and_nonmatching_lines_dropped (("intro\n1. Idea A\n\n2. Idea B").data)).1,
   (C3_blank_and_nonmatching_lines_dropped (("intro\n1. Idea A\n\n2. Idea B").data)).2.1
     (("   ").data) (by decide),
   (C3_blank_and_nonmatching_lines_dropped (("intro\n1. Idea A\n\n2. Idea B").data)).2.2
     (("intro").data) (by decide)⟩

/-- C4: For every BrainstormRequest, the built idea-generation prompt contains
the literal keywords string as a substring when the keywords field is present
(non-empty), and when the keywords field is empty or absent no keywords clause
is emitted: the prompt is exactly the template filled with the empty clause. -/
theorem C4_keywords_clause (topic audience tone kw : List Char) (h : kw ≠ []) :
    (("Include these keywords or goals: ").data ++ kw) <:+:
        buildIdeasPrompt topic audience tone (some kw) ∧
    kw <:+: buildIdeasPrompt topic audience tone (some kw) ∧
    keywordsText none = [] ∧
    keywordsText (some []) = [] ∧
    buildIdeasPrompt topic audience tone none =
      fillIdeasTemplate topic audience tone [] ∧
    buildIdeasPrompt topic audience tone (some []) =
      fillIdeasTemplate topic audience tone [] := by
  refine ⟨?_, ?_, rfl, rfl, rfl, rfl⟩
  · refine ⟨("\n        You\x27re a creative blogger. Generate 3-5 blog post ideas for the topic ").data
        ++ topic ++ (", \n        targeting ").data ++ audience ++ (", in a ").data
        ++ tone ++ (" tone. ").data,
      ("\n        \n        Format your response as a numbered list with only the ideas, one per line.\n        Each idea should be catchy, specific, and tailored to the audience.\n        ").data, ?_⟩
    simp [buildIdeasPrompt, fillIdeasTemplate, keywordsText, h]
  · refine ⟨("\n        You\x27re a creative blogger. Generate 3-5 blog post ideas for the topic ").data
        ++ topic ++ (", \n        targeting ").data ++ audience ++ (", in a ").data
        ++ tone ++ (" tone. ").data ++ ("Include these keywords or goals: ").data,
      ("\n        \n        Format your response as a numbered list with only the ideas, one per line.\n        Each idea should be catchy, specific, and tailored to the audience.\n        ").data, ?_⟩
    simp [buildIdeasPrompt, fillIdeasTemplate, keywordsText, h]

theorem C4_witness :
    ("SEO").data <:+:
      buildIdeasPrompt (("travel").data) (("beginners").data) (("casual").data)
        (some (("SEO").data)) :=
  (C4_keywords_clause (("travel").data) (("beginners").data) (("casual").data)
    (("SEO").data) (by decide)).2.1

/-- C5: For every generation operation (idea generation or outline
generation), if the credential is missing from the environment, the operation
fails with the user-facing configuration error and halts before any Completion
Client network call is attempted. -/
theorem C5_missing_credential_halts_before_network
    (env : Option (List Char)) (complete : List Char → List Char)
    (topic audience tone idea : List Char) (keywords : Option (List Char))
    (hcred : credentialOk env = false) :
    (generate_blog_ideas env complete topic audience tone keywords).1 =
        Except.error AppError.missingCredential ∧
    (∀ p, Event.networkCall p ∉
        (generate_blog_ideas env complete topic audience tone keywords).2) ∧
    (generate_blog_outline env complete idea topic audience tone).1 =
        Except.error AppError.missingCredential ∧
    (∀ p, Event.networkCall p ∉
        (generate_blog_outline env complete idea topic audience tone).2) ∧
    errorMessage AppError.missingCredential =
      ("OpenAI API key not found. Please check your .env file.").data := by
  have h1 : generate_blog_ideas env complete topic audience tone keywords =
      (Except.error AppError.missingCredential, [Event.envRead]) := by
    simp only [generate_blog_ideas, setup_openai_client_missing hcred]
  have h2 : generate_blog_outline env complete idea topic audience tone =
      (Except.error AppError.missingCredential, [Event.envRead]) := by
    simp only [generate_blog_outline, setup_openai_client_missing hcred]
  refine ⟨by rw [h1], ?_, by rw [h2], ?_, rfl⟩
  · intro p hp
    rw [h1] at hp
    simp at hp
  · intro p hp
    rw [h2] at hp
    simp at hp

theorem C5_witness :
    credentialOk none = false ∧
    (generate_blog_ideas none (fun p => p) (("travel").data) (("beginners").data)
        (("casual").data) none).1 = Except.error AppError.missingCredential :=
  ⟨by decide,
   (C5_missing_credential_halts_before_network none (fun p => p) (("travel").data)
      (("beginners").data) (("casual").data) (("i").data) none (by decide)).1⟩

/-- C6: For every idea selection, regardless of the previously held state, the
selection operation replaces the stored SelectedIdea with the newly chosen
idea and replaces any previously held outline text with the outline generated
for that idea, even if the previous outline was non-empty. -/
theorem C6_selection_replaces_selection_and_outline
    (env : Option (List Char)) (complete : List Char → List Char)
    (st : SessionState) (idea : List Char) (hcred : credentialOk env = true) :
    (selectIdea env complete st idea).1.selected_idea = some idea ∧
    (selectIdea env complete st idea).1.outline =
      complete (buildOutlinePrompt idea st.topic st.audience (pyLower st.tone)) := by
  obtain ⟨k, hk, hne⟩ := credentialOk_some hcred
  subst hk
  simp [selectIdea, generate_blog_outline_ok hne]

theorem C6_witness :
    (selectIdea (some (("key").data)) (fun _ => ("NEW OUTLINE").data)
        ⟨[("Old idea").data], some (("Old idea").data), ("OLD OUTLINE").data,
          ("tech").data, ("devs").data, ("Casual").data⟩
        (("New idea").data)).1.selected_idea = some (("New idea").data) :=
  (C6_selection_replaces_selection_and_outline (some (("key").data))
    (fun _ => ("NEW OUTLINE").data)
    ⟨[("Old idea").data], some (("Old idea").data), ("OLD OUTLINE").data,
      ("tech").data, ("devs").data, ("Casual").data⟩
    (("New idea").data) (by decide)).1

/-- C7: For every generated outline, the two download links (`.txt` filename
and `.pdf` filename) embed byte-identical content: the same base64 encoding of
the same outline text under the same `text/plain` MIME type, differing only in
filename and label. -/
theorem C7_download_links_byte_identical (outline ts : List Char) :
    ∃ payload,
      payload = base64Encode (utf8Encode outline) ∧
      (outlineDownloadLinks outline ts).1 =
        ("<a href=\"data:text/plain;base64,").data ++ payload ++ ("\" download=\"").data
          ++ (("blog_outline_").data ++ ts ++ (".txt").data)
          ++ ("\" class=\"download-link\">").data
          ++ ("📄 Download as Text File").data ++ ("</a>").data ∧
      (outlineDownloadLinks outline ts).2 =
        ("<a href=\"data:text/plain;base64,").data ++ payload ++ ("\" download=\"").data
          ++ (("blog_outline_").data ++ ts ++ (".pdf").data)
          ++ ("\" class=\"download-link\">").data
          ++ ("📑 Download as PDF").data ++ ("</a>").data :=
  ⟨base64Encode (utf8Encode outline), rfl, rfl, rfl⟩

/-- C8 (counterexample): an idea-generation operation does perform an
environment read of the secret during its execution, contradicting the claim
that no generation operation reads the environment. -/
theorem C8_counterexample_generation_reads_environment :
    Event.envRead ∈
      (generate_blog_ideas (some (("key").data)) (fun p => p)
        (("travel").data) (("beginners").data) (("casual").data) none).2 := by
  rw [generate_blog_ideas_ok (by decide) (fun p => p)
    (("travel").data) (("beginners").data) (("casual").data) none]
  simp

/-- C8 (amended): the credential is not read once at startup; instead every
generation operation (idea generation and outline generation alike) performs
exactly one environment read of the secret during its execution, as its first
observable action, before any network call. -/
theorem C8_amended_env_read_once_per_generation
    (env : Option (List Char)) (complete : List Char → List Char)
    (topic audience tone idea : List Char) (keywords : Option (List Char)) :
    (generate_blog_ideas env complete topic audience tone keywords).2.countP
        isEnvRead = 1 ∧
    (generate_blog_ideas env complete topic audience tone keywords).2.head? =
        some Event.envRead ∧
    (generate_blog_outline env complete idea topic audience tone).2.countP
        isEnvRead = 1 ∧
    (generate_blog_outline env complete idea topic audience tone).2.head? =
        some Event.envRead := by
  by_cases hcred : credentialOk env = true
  · obtain ⟨k, hk, hne⟩ := credentialOk_some hcred
    subst hk
    rw [generate_blog_ideas_ok hne, generate_blog_outline_ok hne]
    refine ⟨?_, rfl, ?_, rfl⟩ <;> simp [isEnvRead]
  · have h := setup_openai_client_missing (by simpa using hcred)
    simp only [generate_blog_ideas, generate_blog_outline, h]
    refine ⟨?_, rfl, ?_, rfl⟩ <;> simp [isEnvRead]

/-- C9: For every form submission with non-empty topic and audience that fails
the at-least-3-ideas gate, the session fields topic, audience and tone are
nevertheless updated to the newly submitted values before the gate is
evaluated; a subsequent outline generation for an idea from the previously
retained IdeaList therefore uses the new topic, audience and tone, not the
ones that produced that list. -/
theorem C9_session_fields_updated_before_gate
    (env : Option (List Char)) (complete complete2 : List Char → List Char)
    (st : SessionState) (topic audience tone keywords idea : List Char)
    (htopic : topic ≠ []) (haud : audience ≠ []) (hcred : credentialOk env = true)
    (hfew : (parse_ideas (complete
      (buildIdeasPrompt topic audience (pyLower tone) (some keywords)))).length < 3) :
    (submitForm env complete st topic audience tone keywords).1.topic = topic ∧
    (submitForm env complete st topic audience tone keywords).1.audience = audience ∧
    (submitForm env complete st topic audience tone keywords).1.tone = tone ∧
    (submitForm env complete st topic audience tone keywords).1.generated_ideas =
        st.generated_ideas ∧
    (selectIdea env complete2
        (submitForm env complete st topic audience tone keywords).1 idea).1.outline =
      complete2 (buildOutlinePrompt idea topic audience (pyLower tone)) := by
  obtain ⟨k, hk, hne⟩ := credentialOk_some hcred
  subst hk
  rw [submitForm_reject hne htopic haud complete st tone keywords hfew]
  refine ⟨rfl, rfl, rfl, rfl, ?_⟩
  simp [selectIdea, generate_blog_outline_ok hne]

theorem C9_witness :
    (submitForm (some (("key").data)) (fun _ => ("1. A\n2. B").data)
        ⟨[("Old idea").data], some (("Old idea").data), ("OLD OUTLINE").data,
          ("cooking").data, ("parents").data, ("Humorous").data⟩
        (("travel").data) (("beginners").data) (("Casual").data) []).1.topic =
      ("travel").data :=
  (C9_session_fields_updated_before_gate (some (("key").data))
    (fun _ => ("1. A\n2. B").data) (fun _ => ("OUT").data)
    ⟨[("Old idea").data], some (("Old idea").data), ("OLD OUTLINE").data,
      ("cooking").data, ("parents").data, ("Humorous").data⟩
    (("travel").data) (("beginners").data) (("Casual").data) [] (("Old idea").data)
    (by decide) (by decide) (by decide) (by decide)).1

/-- C10: For every idea-generation and outline-generation call issued by the
handlers, the tone string interpolated into the prompt is the lowercase form
of the selected enum label (e.g. "casual" rather than "Casual"), never the
label as presented in the input surface. -/
theorem C10_tone_lowercased_in_prompts
    (env : Option (List Char)) (complete : List Char → List Char)
    (st : SessionState) (topic audience tone keywords idea : List Char)
    (htopic : topic ≠ []) (haud : audience ≠ []) (hcred : credentialOk env = true) :
    (submitForm env complete st topic audience tone keywords).2.2 =
      [Event.envRead,
       Event.networkCall (buildIdeasPrompt topic audience (pyLower tone) (some keywords))] ∧
    (selectIdea env complete st idea).2 =
      [Event.envRead,
       Event.networkCall (buildOutlinePrompt idea st.topic st.audience (pyLower st.tone))] ∧
    toneOptions.map pyLower =
      [("casual").data, ("professional").data, ("humorous").data,
       ("informative").data, ("inspirational").data] ∧
    (∀ t ∈ toneOptions, pyLower t ≠ t) := by
  obtain ⟨k, hk, hne⟩ := credentialOk_some hcred
  subst hk
  refine ⟨?_, ?_, by decide, by decide⟩
  · by_cases hc : 3 ≤ (parse_ideas (complete
        (buildIdeasPrompt topic audience (pyLower tone) (some keywords)))).length
    · rw [submitForm_accept hne htopic haud complete st tone keywords hc]
    · rw [submitForm_reject hne htopic haud complete st tone keywords (by omega)]
  · simp [selectIdea, generate_blog_outline_ok hne]

theorem C10_witness :
    (selectIdea (some (("key").data)) (fun p => p)
        ⟨[], none, [], ("travel").data, ("beginners").data, ("Casual").data⟩
        (("Idea").data)).2 =
      [Event.envRead,
       Event.networkCall (buildOutlinePrompt (("Idea").data) (("travel").data)
         (("beginners").data) (pyLower (("Casual").data)))] :=
  (C10_tone_lowercased_in_prompts (some (("key").data)) (fun p => p)
    ⟨[], none, [], ("travel").data, ("beginners").data, ("Casual").data⟩
    (("t").data) (("a").data) (("Casual").data) [] (("Idea").data)
    (by decide) (by decide) (by decide)).2.1

end Brainstormer
